import Mathlib

/-!
# Verification of the error-tracking ingestion and resolution engine

A shallow embedding of the `django-superapp-error-tracking` repository:

* `src/services/error_tracker.py` — `get_client_ip`, `get_request_details`,
  `extract_traceback_info`, `track_error`;
* `src/models/error_log.py` — the `ErrorLog` record and its `save` override
  (JSON-field normalization, `auto_now` timestamps);
* `src/admin/error_log.py` — `mark_as_resolved`, `mark_as_unresolved`,
  `bulk_delete_resolved`, `save_model`.

Machine times are `Nat`; Python dictionaries are association lists with
Python's insertion-order update semantics; ambient interpreter state (the
caller frame inspected by `inspect`, `timezone.now()`, Django settings, and
injected persistence failures) is an explicit `Env` record.  Python's
`try/except` boundary in `track_error` is an `Except` layer that the
top-level wrapper totalizes, exactly as the source's top-level handler does.
-/

/-- A JSON-like value: the payload type of the `debug_details` JSONField.
`jobj` keeps Python-dict insertion order as an association list. -/
inductive JVal where
  | jstr : String → JVal
  | jnat : Nat → JVal
  | jbool : Bool → JVal
  | jnull : JVal
  | jobj : List (String × JVal) → JVal

/-- Whether a `JVal` is a structured object (a Python `dict`). -/
def JVal.isObj : JVal → Bool
  | JVal.jobj _ => true
  | _ => false

/-- Key lookup inside a structured `JVal`; `none` on non-objects. -/
def JVal.objLookup (v : JVal) (k : String) : Option JVal :=
  match v with
  | JVal.jobj m => m.lookup k
  | _ => none

/-- The persisted `ErrorLog` row (`src/models/error_log.py`).  `user`,
`resolved_by` are identity references by id; timestamps are `Nat`. -/
structure ErrorLog where
  id : Nat
  error_level : String
  exception_type : String
  exception_message : String
  file_path : String
  line_number : Option Nat
  function_name : String
  user : Option Nat
  request_method : String
  request_path : String
  user_agent : String
  ip_address : Option String
  stack_trace : String
  debug_details : JVal
  resolved : Bool
  resolved_by : Option Nat
  resolved_at : Option Nat
  notes : String
  count : Nat
  first_occurrence : Nat
  last_occurrence : Nat
  created_at : Nat
  updated_at : Nat

/-- The backing table plus the id sequence feeding `objects.create`. -/
structure Store where
  records : List ErrorLog
  nextId : Nat

/-- A user object as `track_error` probes it (`id`, `username`, `email`,
`is_staff`, `is_superuser`). -/
structure PyUser where
  id : Nat
  username : String
  email : String
  is_staff : Bool
  is_superuser : Bool

/-- A Django request as the tracker probes it.  `x_forwarded_for`,
`x_real_ip`, `remote_addr` model the `META` headers; `authUser` is
`request.user` when `request.user.is_authenticated`, else `none`;
`session_key` is the resolved `request.session.get('session_key', '')`;
`x_requested_with` is the `X-Requested-With` header. -/
structure Request where
  method : String
  path : String
  full_path : String
  user_agent : String
  x_forwarded_for : Option String
  x_real_ip : Option String
  remote_addr : Option String
  session_key : String
  x_requested_with : Option String
  is_secure : Bool
  GET : List (String × String)
  POST : List (String × String)
  authUser : Option PyUser

/-- One traceback entry: the frame's `co_filename` / `co_name` and the
entry's `tb_lineno`. -/
structure TBEntry where
  filename : String
  funcName : String
  lineno : Nat

/-- A Python exception as `extract_traceback_info` reads it: runtime class
name, `str(...)` form, the traceback chain (outermost first, `[]` for the
absent traceback, i.e. `sys.exc_info()[2] or exception.__traceback__` both
`None`), and the string `traceback.format_exception` renders for it. -/
structure PyExc where
  typeName : String
  strForm : String
  tb : List TBEntry
  rendered : String

/-- The `exception` argument of `track_error`: absent, a plain message
string, or an exception object. -/
inductive ExcArg where
  | noArg : ExcArg
  | msg : String → ExcArg
  | exc : PyExc → ExcArg

/-- The caller frame `inspect.currentframe().f_back` exposes. -/
structure CallerFrame where
  filename : String
  lineno : Nat
  funcName : String

/-- Ambient interpreter/Django state for one `track_error` call: the caller
frame, `timezone.now()`, whether the persistence layer raises on this call,
and the `settings` / `sys` values read for the `environment` payload. -/
structure Env where
  caller : Option CallerFrame
  now : Nat
  dbFail : Bool
  django_version : String
  debugFlag : Bool
  python_version : String
  platform : String

/-- The keyword arguments of `track_error` (everything except the store and
the ambient state). -/
structure TrackArgs where
  exception : ExcArg
  error_level : String
  custom_message : Option String
  debug_details : Option (List (String × JVal))
  request : Option Request
  user : Option PyUser
  file_path : Option String
  line_number : Option Nat
  function_name : Option String
  kwargs : List (String × JVal)

/-- Python `a or b` on an optional string: `None` and `''` are falsy. -/
def orStr (a : Option String) (b : String) : String :=
  match a with
  | some s => if s = "" then b else s
  | none => b

/-- Python truthiness of an optional string (`if x:`). -/
def truthyStr : Option String → Option String
  | some s => if s = "" then none else some s
  | none => none

/-- `get_client_ip` (error_tracker.py lines 18-31): forwarded-for header
(first comma-separated entry, stripped), else real-IP header (stripped),
else `REMOTE_ADDR`. -/
def get_client_ip (req : Option Request) : Option String :=
  match req with
  | none => none
  | some r =>
    match truthyStr r.x_forwarded_for with
    | some s => some (((s.splitOn (",")).headD ("")).trim)
    | none =>
      match truthyStr r.x_real_ip with
      | some s => some s.trim
      | none => r.remote_addr

/-- Substring test on character lists (Python `needle in hay`). -/
def strContainsAux (needle : List Char) : List Char → Bool
  | [] => needle.isEmpty
  | c :: t => needle.isPrefixOf (c :: t) || strContainsAux needle t

/-- Python `str.lower()` viewed as a character list (`String.map` is
well-founded recursion and does not evaluate inside the kernel, so the
lowering works on the underlying characters). -/
def lowerChars (k : String) : List Char := k.toList.map Char.toLower

/-- The sensitive-term set of `get_request_details` (line 56). -/
def sensitive_fields : List String :=
  [("password"), ("token"), ("api_key"), ("secret"), ("csrf_token")]

/-- Whether a POST key is filtered: some sensitive term occurs in
`key.lower()` (lines 58-60, Python `sensitive in key.lower()`). -/
def isSensitiveKey (k : String) : Bool :=
  sensitive_fields.any (fun s => strContainsAux s.toList (lowerChars k))

/-- The POST-redaction loop of `get_request_details` (lines 54-63):
sensitive keys get the fixed marker, all other pairs pass unchanged. -/
def filter_post (post : List (String × String)) : List (String × String) :=
  post.map (fun kv => if isSensitiveKey kv.1 then (kv.1, ("[FILTERED]")) else kv)

/-- The base detail fields of `get_request_details` (lines 39-48). -/
def request_base (r : Request) : List (String × JVal) :=
  [(("method"), JVal.jstr r.method),
   (("path"), JVal.jstr r.path),
   (("full_path"), JVal.jstr r.full_path),
   (("user_agent"), JVal.jstr r.user_agent),
   (("ip_address"),
     match get_client_ip (some r) with
     | some s => JVal.jstr s
     | none => JVal.jnull),
   (("session_key"), JVal.jstr r.session_key),
   (("is_ajax"), JVal.jbool (r.x_requested_with = some ("XMLHttpRequest"))),
   (("is_secure"), JVal.jbool r.is_secure)]

/-- Lines 51-52: the base fields plus `get_params` verbatim when
`request.GET` is truthy. -/
def request_with_get (r : Request) : List (String × JVal) :=
  if r.GET.isEmpty then request_base r
  else request_base r ++
    [(("get_params"), JVal.jobj (r.GET.map (fun kv => (kv.1, JVal.jstr kv.2))))]

/-- Lines 54-63: the detail dict for a present request, adding the redacted
`post_params` when `request.POST` is truthy. -/
def request_details_of (r : Request) : List (String × JVal) :=
  if r.POST.isEmpty then request_with_get r
  else request_with_get r ++
    [(("post_params"), JVal.jobj ((filter_post r.POST).map (fun kv => (kv.1, JVal.jstr kv.2))))]

/-- `get_request_details` (lines 34-65): `{}` for an absent request, the
detail dict otherwise. -/
def get_request_details (req : Option Request) : JVal :=
  match req with
  | none => JVal.jobj []
  | some r => JVal.jobj (request_details_of r)

/-- The normalized tuple `extract_traceback_info` / `track_error` build. -/
structure ErrorInfo where
  exception_type : String
  exception_message : String
  stack_trace : String
  file_path : String
  line_number : Option Nat
  function_name : String

/-- `extract_traceback_info` (lines 68-103): type and message from the
exception object; when a traceback exists, the rendered trace and the
deepest entry's file / line / function (the `while last_frame.tb_next`
walk), else empty fields. -/
def extract_traceback_info (e : PyExc) : ErrorInfo :=
  if e.tb.isEmpty then
    { exception_type := e.typeName, exception_message := e.strForm,
      stack_trace := "", file_path := "", line_number := none, function_name := "" }
  else
    let last := e.tb.getLastD { filename := "", funcName := "", lineno := 0 }
    { exception_type := e.typeName, exception_message := e.strForm,
      stack_trace := e.rendered, file_path := last.filename,
      line_number := some last.lineno, function_name := last.funcName }

/-- Python truthiness of the `exception` argument (`None` and `''` falsy). -/
def excTruthy : ExcArg → Bool
  | ExcArg.noArg => false
  | ExcArg.msg s => s ≠ ""
  | ExcArg.exc _ => true

/-- `str(exception)` for the truthy cases. -/
def strOfExc : ExcArg → String
  | ExcArg.noArg => ""
  | ExcArg.msg s => s
  | ExcArg.exc e => e.strForm

/-- The `error_info` dict as first initialized (track_error lines 141-148);
note the conditional-expression parse: when `exception` is falsy the
message is the literal default and `custom_message` is ignored. -/
def initial_error_info (args : TrackArgs) : ErrorInfo :=
  { exception_type := ("CustomError"),
    exception_message :=
      if excTruthy args.exception then orStr args.custom_message (strOfExc args.exception)
      else ("Unknown error"),
    stack_trace := "",
    file_path := orStr args.file_path "",
    line_number := args.line_number,
    function_name := orStr args.function_name "" }

/-- Lines 151-152: when the argument is an exception object,
`error_info.update(extract_traceback_info(exception))` replaces all six
keys — the dict returned by the extractor carries every key of
`error_info`, so the update is a full overwrite. -/
def error_info_after_extract (args : TrackArgs) : ErrorInfo :=
  match args.exception with
  | ExcArg.exc e => extract_traceback_info e
  | _ => initial_error_info args

/-- Lines 154-160: the caller-frame fallback, applied only when both the
computed `file_path` and the `file_path` argument are falsy. -/
def error_info_final (args : TrackArgs) (caller : Option CallerFrame) : ErrorInfo :=
  let info := error_info_after_extract args
  if info.file_path = "" ∧ orStr args.file_path "" = "" then
    match caller with
    | some c =>
      { info with file_path := c.filename, line_number := some c.lineno,
                  function_name := c.funcName }
    | none => info
  else info

/-- Lines 162-164: `user or (request.user if authenticated)`. -/
def effective_user (args : TrackArgs) : Option PyUser :=
  match args.user with
  | some u => some u
  | none =>
    match args.request with
    | some r => r.authUser
    | none => none

/-- Python `dict.update` on association lists: existing keys keep their
position and take the new value, new keys are appended in order. -/
def jdictUpdate (old new : List (String × JVal)) : List (String × JVal) :=
  old.map (fun p =>
    match new.lookup p.1 with
    | some v => (p.1, v)
    | none => p) ++
  new.filter (fun q => (old.lookup q.1).isNone)

/-- Python `d[k] = v` on association lists. -/
def jdictSet (d : List (String × JVal)) (k : String) (v : JVal) : List (String × JVal) :=
  if (d.lookup k).isSome then d.map (fun p => if p.1 = k then (k, v) else p)
  else d ++ [(k, v)]

/-- The `user` sub-payload (lines 177-183). -/
def user_details (u : PyUser) : JVal :=
  JVal.jobj
    [(("id"), JVal.jnat u.id),
     (("username"), JVal.jstr u.username),
     (("email"), JVal.jstr u.email),
     (("is_staff"), JVal.jbool u.is_staff),
     (("is_superuser"), JVal.jbool u.is_superuser)]

/-- The `environment` sub-payload (lines 186-191), read from ambient
settings and `sys`. -/
def environment_details (env : Env) : JVal :=
  JVal.jobj
    [(("django_version"), JVal.jstr env.django_version),
     (("debug"), JVal.jbool env.debugFlag),
     (("python_version"), JVal.jstr env.python_version),
     (("platform"), JVal.jstr env.platform)]

/-- `combined_debug_details` (lines 167-191): the `debug_details` argument
(or `{}`) updated with `**kwargs`, then the `request`, `user` and
`environment` keys assigned in that order. -/
def combined_debug_details (args : TrackArgs) (env : Env) : List (String × JVal) :=
  let d1 := jdictUpdate (args.debug_details.getD []) args.kwargs
  let d2 :=
    match args.request with
    | some r => jdictSet d1 ("request") (get_request_details (some r))
    | none => d1
  let d3 :=
    match effective_user args with
    | some u => jdictSet d2 ("user") (user_details u)
    | none => d2
  jdictSet d3 ("environment") (environment_details env)

/-- The JSON-normalization step of `ErrorLog.save` (models/error_log.py
lines 180-187): a truthy string payload is `json.loads`-parsed, and an
unparseable one is wrapped under the `raw_data` fallback key; everything
else — including the falsy empty string — passes through.  `parse` stands
for the external `json.loads` (`none` = raises). -/
def normalize_debug_details (parse : String → Option JVal) (dd : JVal) : JVal :=
  match dd with
  | JVal.jstr s =>
    if s = "" then JVal.jstr s
    else
      match parse s with
      | some v => v
      | none => JVal.jobj [(("raw_data"), JVal.jstr s)]
  | v => v

/-- `ErrorLog.save` as it affects one row: the normalization override plus
Django's `auto_now` fields `last_occurrence` and `updated_at`. -/
def modelSave (parse : String → Option JVal) (r : ErrorLog) (now : Nat) : ErrorLog :=
  { r with debug_details := normalize_debug_details parse r.debug_details,
           last_occurrence := now, updated_at := now }

/-- Write-back of a saved row into the table, keyed by primary key. -/
def storeReplace (l : List ErrorLog) (x : ErrorLog) : List ErrorLog :=
  l.map (fun r => if r.id = x.id then x else r)

/-- The dedup key of a row: `(exception_type, exception_message, file_path,
line_number)`. -/
def recKey (r : ErrorLog) : String × String × String × Option Nat :=
  (r.exception_type, r.exception_message, r.file_path, r.line_number)

/-- The dedup key of a normalized event. -/
def infoKey (i : ErrorInfo) : String × String × String × Option Nat :=
  (i.exception_type, i.exception_message, i.file_path, i.line_number)

/-- The filter predicate of track_error lines 198-204: exact dedup key and
`resolved=False`. -/
def open_key_match (i : ErrorInfo) (r : ErrorLog) : Bool :=
  decide (recKey r = infoKey i) && !r.resolved

/-- `ErrorLog.objects.filter(...).first()` of lines 198-204. -/
def findOpen (st : Store) (i : ErrorInfo) : Option ErrorLog :=
  st.records.find? (open_key_match i)

/-- The fresh row `ErrorLog.objects.create` builds (lines 218-232), with
the model defaults (`resolved=False`, `count=1`, empty `notes`) and the
`auto_now_add` stamps. -/
def mkNewRecord (args : TrackArgs) (env : Env) (nid : Nat) : ErrorLog :=
  let info := error_info_final args env.caller
  { id := nid,
    error_level := args.error_level,
    exception_type := info.exception_type,
    exception_message := info.exception_message,
    file_path := info.file_path,
    line_number := info.line_number,
    function_name := info.function_name,
    user := (effective_user args).map (fun u => u.id),
    request_method := match args.request with | some r => r.method | none => "",
    request_path := match args.request with | some r => r.path | none => "",
    user_agent := match args.request with | some r => r.user_agent | none => "",
    ip_address := get_client_ip args.request,
    stack_trace := info.stack_trace,
    debug_details := JVal.jobj (combined_debug_details args env),
    resolved := false, resolved_by := none, resolved_at := none,
    notes := "", count := 1,
    first_occurrence := env.now, last_occurrence := env.now,
    created_at := env.now, updated_at := env.now }

/-- The read half of the find-or-create-or-increment sequence: the
`filter(...).first()` query of lines 198-204, evaluated against the table
the call sees.  Splitting the query from the commit makes the source's lack
of isolation between them expressible: a concurrent interleaving hands a
stale `found` to `trackCommitInner`. -/
def trackQuery (args : TrackArgs) (env : Env) (st : Store) : Option ErrorLog :=
  findOpen st (error_info_final args env.caller)

/-- The write half (lines 206-250), inside the `try` body, acting on the
query's result: merge into the found row (the `debug_details.update` raises
on a non-dict payload, as Python's would) or create a fresh row.  `dbFail`
injects a raising persistence layer. -/
def trackCommitInner (parse : String → Option JVal) (args : TrackArgs) (env : Env)
    (found : Option ErrorLog) (st : Store) : Except String (ErrorLog × Store) :=
  match found with
  | some ex =>
    match ex.debug_details with
    | JVal.jobj m =>
      if env.dbFail then Except.error ("persistence failure")
      else
        let merged := modelSave parse
          { ex with count := ex.count + 1, last_occurrence := env.now,
                    debug_details := JVal.jobj (jdictUpdate m (combined_debug_details args env)) }
          env.now
        Except.ok (merged, { st with records := storeReplace st.records merged })
    | _ => Except.error ("AttributeError: str has no update")
  | none =>
    if env.dbFail then Except.error ("persistence failure")
    else
      let created := modelSave parse (mkNewRecord args env st.nextId) env.now
      Except.ok (created, { records := st.records ++ [created], nextId := st.nextId + 1 })

/-- The commit half with the top-level handler applied to it. -/
def trackCommit (parse : String → Option JVal) (args : TrackArgs) (env : Env)
    (found : Option ErrorLog) (st : Store) : Option ErrorLog × Store :=
  match trackCommitInner parse args env found st with
  | Except.ok (r, st2) => (some r, st2)
  | Except.error _ => (none, st)

/-- `track_error` (lines 106-255): the sequential composition query-then-
commit under the top-level `except Exception` that logs and returns `None`,
leaving the table as it was. -/
def track_error (parse : String → Option JVal) (args : TrackArgs) (env : Env)
    (st : Store) : Option ErrorLog × Store :=
  trackCommit parse args env (trackQuery args env st) st

/-- The `mark_as_resolved` bulk action (admin/error_log.py lines 256-266):
`queryset.filter(resolved=False).update(resolved=True, resolved_by=user,
resolved_at=now)` over the selected ids; returns the rows and the affected
count.  A queryset `update` bypasses `save`, so no `auto_now` bump. -/
def mark_as_resolved (recs : List ErrorLog) (sel : List Nat) (actor : Nat)
    (now : Nat) : List ErrorLog × Nat :=
  (recs.map (fun r =>
      if sel.contains r.id && !r.resolved then
        { r with resolved := true, resolved_by := some actor, resolved_at := some now }
      else r),
   (recs.filter (fun r => sel.contains r.id && !r.resolved)).length)

/-- The `mark_as_unresolved` bulk action (lines 268-278):
`queryset.filter(resolved=True).update(resolved=False, resolved_by=None,
resolved_at=None)`. -/
def mark_as_unresolved (recs : List ErrorLog) (sel : List Nat) :
    List ErrorLog × Nat :=
  (recs.map (fun r =>
      if sel.contains r.id && r.resolved then
        { r with resolved := false, resolved_by := none, resolved_at := none }
      else r),
   (recs.filter (fun r => sel.contains r.id && r.resolved)).length)

/-- The `bulk_delete_resolved` action (lines 280-286):
`queryset.filter(resolved=True).delete()`. -/
def bulk_delete_resolved (recs : List ErrorLog) (sel : List Nat) :
    List ErrorLog × Nat :=
  (recs.filter (fun r => !(sel.contains r.id && r.resolved)),
   (recs.filter (fun r => sel.contains r.id && r.resolved)).length)

/-- The resolution fix-up of `ErrorLogAdmin.save_model` (lines 294-301),
applied to the form-edited object before the save: only when the `resolved`
flag is among the changed attributes, auto-stamp a resolve that carries no
`resolved_by`, or clear both fields on an unresolve. -/
def admin_resolution_fixup (obj : ErrorLog) (change : Bool) (resolvedChanged : Bool)
    (actor : Nat) (now : Nat) : ErrorLog :=
  if change && resolvedChanged then
    if obj.resolved && obj.resolved_by.isNone then
      { obj with resolved_by := some actor, resolved_at := some now }
    else if !obj.resolved then
      { obj with resolved_by := none, resolved_at := none }
    else obj
  else obj

/-- `ErrorLogAdmin.save_model` (lines 294-303): the fix-up, then
`super().save_model` which persists through `ErrorLog.save`.  Returns the
saved row and the table. -/
def save_model (parse : String → Option JVal) (recs : List ErrorLog) (obj : ErrorLog)
    (change : Bool) (resolvedChanged : Bool) (actor : Nat) (now : Nat) :
    ErrorLog × List ErrorLog :=
  let saved := modelSave parse (admin_resolution_fixup obj change resolvedChanged actor now) now
  (saved, if change then storeReplace recs saved else recs ++ [saved])

/-- Table well-formedness maintained by the engine: ids below the sequence
counter, no duplicate ids, structured debug payloads. -/
def StoreWF (st : Store) : Prop :=
  (∀ r ∈ st.records, r.id < st.nextId) ∧
  (st.records.map (fun t => t.id)).Nodup ∧
  (∀ r ∈ st.records, r.debug_details.isObj = true)

/-- The spec's uniqueness invariant: no two open rows share a dedup key. -/
def OpenKeyUnique (l : List ErrorLog) : Prop :=
  l.Pairwise (fun a b => a.resolved = false → b.resolved = false → recKey a ≠ recKey b)

/-- A `json.loads` stand-in that accepts nothing (every parse raises). -/
def parse0 : String → Option JVal := fun _ => none

/-- Ambient state at time `n`: no caller frame, healthy persistence. -/
def envAt (n : Nat) : Env :=
  { caller := none, now := n, dbFail := false,
    django_version := ("unknown"), debugFlag := false,
    python_version := ("3.12"), platform := ("linux") }

/-- A plain-message ingestion call with explicit site overrides; its dedup
key is `(CustomError, boom, /a.py, 3)`. -/
def cexArgs : TrackArgs :=
  { exception := ExcArg.msg ("boom"),
    error_level := ("error"),
    custom_message := none,
    debug_details := none,
    request := none,
    user := none,
    file_path := some ("/a.py"),
    line_number := some 3,
    function_name := some ("f"),
    kwargs := [] }

/-- A concrete open row whose dedup key equals the key of `cexArgs`. -/
def baseRec : ErrorLog :=
  { id := 0, error_level := ("error"), exception_type := ("CustomError"),
    exception_message := ("boom"), file_path := ("/a.py"), line_number := some 3,
    function_name := ("f"), user := none, request_method := "", request_path := "",
    user_agent := "", ip_address := none, stack_trace := "",
    debug_details := JVal.jobj [], resolved := false, resolved_by := none,
    resolved_at := none, notes := "", count := 1, first_occurrence := 0,
    last_occurrence := 0, created_at := 0, updated_at := 0 }

/-- A one-row table holding the open row `baseRec`. -/
def c1Store : Store := { records := [baseRec], nextId := 1 }

/-- A table whose single open row carries a non-dict debug payload. -/
def badStore : Store :=
  { records := [{ baseRec with debug_details := JVal.jstr ("x") }], nextId := 1 }

/-- An exception object carrying a traceback whose deepest frame is
`/deep.py:42` in `g`. -/
def c4Exc : PyExc :=
  { typeName := ("ValueError"), strForm := ("boom"),
    tb := [{ filename := ("/deep.py"), funcName := ("g"), lineno := 42 }],
    rendered := ("Traceback (most recent call last): ValueError: boom") }

/-- An ingestion call passing the exception object together with every
explicit override the API documents. -/
def c4Args : TrackArgs :=
  { cexArgs with exception := ExcArg.exc c4Exc, custom_message := some ("custom"),
                 file_path := some ("/x.py"), line_number := some 5,
                 function_name := some ("fn") }

/-- A request whose POST dict carries one sensitive and one plain key. -/
def c6Req : Request :=
  { method := ("POST"), path := ("/p"), full_path := ("/p"), user_agent := "",
    x_forwarded_for := none, x_real_ip := none, remote_addr := none,
    session_key := "", x_requested_with := none, is_secure := false,
    GET := [], POST := [(("password"), ("x")), (("name"), ("y"))], authUser := none }

/-- A request whose GET dict carries sensitive-looking keys. -/
def c10Req : Request :=
  { method := ("GET"), path := ("/p"), full_path := ("/p"), user_agent := "",
    x_forwarded_for := none, x_real_ip := none, remote_addr := none,
    session_key := "", x_requested_with := none, is_secure := false,
    GET := [(("password"), ("hunter2")), (("token"), ("t1"))], POST := [],
    authUser := none }

instance openKeyUniqueDecidable (l : List ErrorLog) : Decidable (OpenKeyUnique l) := by
  unfold OpenKeyUnique
  infer_instance

/-- Race pipeline, first committed call: both concurrent calls read the
empty table, then this one commits its create. -/
def raceStore1 : Store :=
  (trackCommit parse0 cexArgs (envAt 0) none { records := [], nextId := 0 }).2

/-- Race pipeline, second committed call: commits against `raceStore1` but
with the stale read (`none`) it took from the empty table. -/
def raceStore2 : Store :=
  (trackCommit parse0 cexArgs (envAt 0) none raceStore1).2

/-- Reopening pipeline, step 1: first sighting creates row 0 (open). -/
def reopenStore1 : Store :=
  (track_error parse0 cexArgs (envAt 0) { records := [], nextId := 0 }).2

/-- Step 2: an operator bulk-resolves row 0. -/
def reopenStore2 : Store :=
  { records := (mark_as_resolved reopenStore1.records [0] 7 1).1,
    nextId := reopenStore1.nextId }

/-- Step 3: the same signature arrives again; the resolved row is not
merged into, so row 1 is created open with the same dedup key. -/
def reopenStore3 : Store :=
  (track_error parse0 cexArgs (envAt 2) reopenStore2).2

/-- Step 4: an operator bulk-unresolves row 0, reopening it next to the
open row 1 with the identical dedup key. -/
def reopenFinal : List ErrorLog :=
  (mark_as_unresolved reopenStore3.records [0]).1

instance storeWFDecidable (st : Store) : Decidable (StoreWF st) := by
  unfold StoreWF
  infer_instance

/-- Structured payloads are exactly the `jobj` values. -/
theorem isObj_iff (v : JVal) : v.isObj = true ↔ ∃ m, v = JVal.jobj m := by
  cases v <;> simp [JVal.isObj]

/-- The filter predicate of the dedup query, spelled out. -/
theorem open_key_match_iff (i : ErrorInfo) (r : ErrorLog) :
    open_key_match i r = true ↔ (recKey r = infoKey i ∧ r.resolved = false) := by
  simp [open_key_match]

/-- Writing back a saved row changes no primary key. -/
theorem storeReplace_map_id (l : List ErrorLog) (x : ErrorLog) :
    (storeReplace l x).map (fun t => t.id) = l.map (fun t => t.id) := by
  unfold storeReplace
  rw [List.map_map]
  exact List.map_congr_left (fun a _ => by by_cases h : a.id = x.id <;> simp [h])

/-- Association-list lookup across an append. -/
theorem lookup_append (l1 l2 : List (String × JVal)) (k : String) :
    (l1 ++ l2).lookup k =
      match l1.lookup k with
      | some v => some v
      | none => l2.lookup k := by
  induction l1 with
  | nil => rfl
  | cons p t ih =>
    obtain ⟨a, b⟩ := p
    cases hab : (k == a) <;> simp [List.lookup, hab, ih]

/-- Lookup after an append when the key misses the first list entirely. -/
theorem lookup_append_of_not_mem_keys (l1 l2 : List (String × JVal)) (k : String)
    (h : k ∉ l1.map Prod.fst) : (l1 ++ l2).lookup k = l2.lookup k := by
  induction l1 with
  | nil => rfl
  | cons p t ih =>
    obtain ⟨a, b⟩ := p
    simp only [List.map_cons, List.mem_cons, not_or] at h
    have hab : (k == a) = false := beq_eq_false_iff_ne.mpr h.1
    simp [List.lookup, hab, ih h.2]

/-- Lookup in the overwrite half of `jdictUpdate`: present keys keep their
position and pick up the new value when one exists. -/
theorem lookup_update_map (old new : List (String × JVal)) (k : String) :
    ((old.map (fun p =>
        match new.lookup p.1 with
        | some v => (p.1, v)
        | none => p)).lookup k) =
      (old.lookup k).map (fun v => ((new.lookup k).getD v)) := by
  induction old with
  | nil => rfl
  | cons p t ih =>
    obtain ⟨a, b⟩ := p
    cases hab : (k == a) with
    | true =>
      have ha : k = a := eq_of_beq hab
      subst ha
      cases hn : new.lookup k <;> simp [List.lookup, hn]
    | false =>
      cases hn : new.lookup a <;> simp [List.lookup, hab, hn, ih]

/-- Lookup in the append half of `jdictUpdate`: genuinely new keys survive
the filter, keys already present are dropped there. -/
theorem lookup_filter_new (old new : List (String × JVal)) (k : String) :
    ((new.filter (fun q => (old.lookup q.1).isNone)).lookup k) =
      if (old.lookup k).isNone then new.lookup k else none := by
  induction new with
  | nil => simp
  | cons q t ih =>
    obtain ⟨a, b⟩ := q
    cases hab : (k == a) with
    | true =>
      have ha : k = a := eq_of_beq hab
      subst ha
      cases ho : (old.lookup k).isNone <;>
        simp [List.filter_cons, ho, List.lookup, ih]
    | false =>
      cases ho : (old.lookup a).isNone <;>
        simp [List.filter_cons, ho, List.lookup, hab, ih]

/-- The merge semantics of `dict.update`: an overlapping key takes the new
value, a key only in the old dict keeps its value, new keys are added. -/
theorem jdictUpdate_lookup (old new : List (String × JVal)) (k : String) :
    (jdictUpdate old new).lookup k =
      match new.lookup k with
      | some v => some v
      | none => old.lookup k := by
  unfold jdictUpdate
  rw [lookup_append, lookup_update_map, lookup_filter_new]
  cases hn : new.lookup k <;> cases ho : old.lookup k <;> simp [hn, ho]

/-- Replacing a row by primary key with one that keeps its dedup key and
resolution flag preserves open-key uniqueness (duplicate-free ids make the
write-back hit only the intended row). -/
theorem openKeyUnique_storeReplace (l : List ErrorLog) (ex merged : ErrorLog)
    (hids : (l.map (fun t => t.id)).Nodup) (hexmem : ex ∈ l)
    (hid : merged.id = ex.id) (hkey : recKey merged = recKey ex)
    (hres : merged.resolved = ex.resolved)
    (h : OpenKeyUnique l) : OpenKeyUnique (storeReplace l merged) := by
  unfold OpenKeyUnique storeReplace at *
  rw [List.pairwise_map]
  refine List.Pairwise.imp_of_mem (fun {a b} ha hb hab => ?_) h
  have key_eq : ∀ c ∈ l,
      recKey (if c.id = merged.id then merged else c) = recKey c ∧
      (if c.id = merged.id then merged else c).resolved = c.resolved := by
    intro c hc
    by_cases hcm : c.id = merged.id
    · have hce : c = ex := List.inj_on_of_nodup_map hids hc hexmem (by rw [hcm, hid])
      subst hce
      simp [hcm, hkey, hres]
    · simp [hcm]
  intro hfa hfb
  obtain ⟨ka, ra⟩ := key_eq a ha
  obtain ⟨kb, rb⟩ := key_eq b hb
  rw [ka, kb]
  exact hab (ra.symm.trans hfa) (rb.symm.trans hfb)

/-- Appending an open row whose dedup key collides with no open row
preserves open-key uniqueness. -/
theorem openKeyUnique_append (l : List ErrorLog) (n : ErrorLog)
    (hfresh : ∀ a ∈ l, a.resolved = false → recKey a ≠ recKey n)
    (h : OpenKeyUnique l) : OpenKeyUnique (l ++ [n]) := by
  unfold OpenKeyUnique at *
  rw [List.pairwise_append]
  refine ⟨h, List.pairwise_singleton _ _, fun a ha b hb => ?_⟩
  have hbn : b = n := by simpa using hb
  subst hbn
  intro hra _
  exact hfresh a ha hra

/-- C1: with an identical dedup key arriving while a matching open record
exists, `track_error` increments that record's `count` and creates no new
row (same ids, same id sequence); when every record with the event's key is
resolved, it creates a fresh open record with `count = 1` whose id differs
from every existing row, appended next to the untouched existing rows. -/
theorem track_error_dedup (parse : String → Option JVal) (args : TrackArgs)
    (env : Env) (st : Store) (hwf : StoreWF st) (hdb : env.dbFail = false) :
    (∀ ex, findOpen st (error_info_final args env.caller) = some ex →
      ∃ r st2, track_error parse args env st = (some r, st2) ∧
        r.id = ex.id ∧ r.count = ex.count + 1 ∧
        st2.records.map (fun t => t.id) = st.records.map (fun t => t.id) ∧
        st2.nextId = st.nextId) ∧
    ((∀ r2 ∈ st.records, recKey r2 = infoKey (error_info_final args env.caller) →
        r2.resolved = true) →
      ∃ r st2, track_error parse args env st = (some r, st2) ∧
        r.count = 1 ∧ r.resolved = false ∧
        recKey r = infoKey (error_info_final args env.caller) ∧
        (∀ r2 ∈ st.records, r2.id ≠ r.id) ∧
        st2.records = st.records ++ [r]) := by
  constructor
  · intro ex hfind
    have hmem : ex ∈ st.records := List.mem_of_find?_eq_some hfind
    obtain ⟨m, hm⟩ := (isObj_iff ex.debug_details).mp (hwf.2.2 ex hmem)
    refine ⟨modelSave parse
        { ex with count := ex.count + 1, last_occurrence := env.now,
                  debug_details := JVal.jobj (jdictUpdate m (combined_debug_details args env)) }
        env.now,
      { st with records := storeReplace st.records (modelSave parse
          { ex with count := ex.count + 1, last_occurrence := env.now,
                    debug_details := JVal.jobj (jdictUpdate m (combined_debug_details args env)) }
          env.now) },
      ?_, rfl, rfl, ?_, rfl⟩
    · simp [track_error, trackCommit, trackCommitInner, trackQuery, hfind, hm, hdb]
    · exact storeReplace_map_id _ _
  · intro hall
    have hnone : findOpen st (error_info_final args env.caller) = none := by
      unfold findOpen
      rw [List.find?_eq_none]
      intro x hx hpx
      obtain ⟨hk, hr⟩ := (open_key_match_iff _ _).mp hpx
      rw [hall x hx hk] at hr
      cases hr
    refine ⟨modelSave parse (mkNewRecord args env st.nextId) env.now,
      { records := st.records ++ [modelSave parse (mkNewRecord args env st.nextId) env.now],
        nextId := st.nextId + 1 },
      ?_, rfl, rfl, rfl, ?_, rfl⟩
    · simp [track_error, trackCommit, trackCommitInner, trackQuery, hnone, hdb]
    · intro r2 hr2
      exact Nat.ne_of_lt (hwf.1 r2 hr2)

/-- C5: `track_error` never propagates a failure — it either returns the
recorded row or returns `none` with the table untouched; in particular an
injected persistence failure, or a merge target whose debug payload is not
a dict (whose `.update` raises), both yield `none` and leave the table as
it was. -/
theorem track_error_never_raises (parse : String → Option JVal) (args : TrackArgs)
    (env : Env) (st : Store) :
    ((∃ r st2, track_error parse args env st = (some r, st2)) ∨
      track_error parse args env st = (none, st)) ∧
    (env.dbFail = true → track_error parse args env st = (none, st)) ∧
    (∀ ex, trackQuery args env st = some ex → ex.debug_details.isObj = false →
      track_error parse args env st = (none, st)) := by
  refine ⟨?_, ?_, ?_⟩
  · unfold track_error trackCommit
    cases h : trackCommitInner parse args env (trackQuery args env st) st with
    | ok p => exact Or.inl ⟨p.1, p.2, rfl⟩
    | error e => exact Or.inr rfl
  · intro hdb
    unfold track_error trackCommit trackCommitInner
    cases hq : trackQuery args env st with
    | none => simp [hdb]
    | some ex => cases hm : ex.debug_details <;> simp [hdb, hm]
  · intro ex hq hobj
    unfold track_error trackCommit trackCommitInner
    rw [hq]
    cases hm : ex.debug_details <;> simp_all [JVal.isObj]

/-- C3 amended: open-key uniqueness is preserved by ingestion (both the
merge and the create path of `track_error`, in particular ingestion after a
resolve) and by the bulk resolve transition; the unresolve transitions do
not preserve it (see the counterexample). -/
theorem openKeyUnique_preserved (parse : String → Option JVal) (args : TrackArgs)
    (env : Env) (st : Store) (hwf : StoreWF st) (huniq : OpenKeyUnique st.records) :
    OpenKeyUnique (track_error parse args env st).2.records ∧
    (∀ recs sel actor now, OpenKeyUnique recs →
      OpenKeyUnique (mark_as_resolved recs sel actor now).1) := by
  constructor
  · by_cases hdb : env.dbFail = true
    · have hE : track_error parse args env st = (none, st) := by
        unfold track_error trackCommit trackCommitInner
        cases hq : trackQuery args env st with
        | none => simp [hdb]
        | some ex => cases hm : ex.debug_details <;> simp [hdb, hm]
      rw [hE]
      exact huniq
    · rw [Bool.not_eq_true] at hdb
      cases hq : findOpen st (error_info_final args env.caller) with
      | some ex =>
        have hmem : ex ∈ st.records := List.mem_of_find?_eq_some hq
        obtain ⟨m, hm⟩ := (isObj_iff ex.debug_details).mp (hwf.2.2 ex hmem)
        have hE : (track_error parse args env st).2.records =
            storeReplace st.records (modelSave parse
              { ex with count := ex.count + 1, last_occurrence := env.now,
                        debug_details :=
                          JVal.jobj (jdictUpdate m (combined_debug_details args env)) }
              env.now) := by
          simp [track_error, trackCommit, trackCommitInner, trackQuery, hq, hm, hdb]
        rw [hE]
        exact openKeyUnique_storeReplace st.records ex _ hwf.2.1 hmem rfl rfl rfl huniq
      | none =>
        have hE : (track_error parse args env st).2.records =
            st.records ++ [modelSave parse (mkNewRecord args env st.nextId) env.now] := by
          simp [track_error, trackCommit, trackCommitInner, trackQuery, hq, hdb]
        rw [hE]
        refine openKeyUnique_append _ _ (fun a ha hra hkey => ?_) huniq
        have hmatch : open_key_match (error_info_final args env.caller) a = true :=
          (open_key_match_iff _ _).mpr ⟨hkey, hra⟩
        exact List.find?_eq_none.mp hq a ha hmatch
  · intro recs sel actor now h
    unfold OpenKeyUnique mark_as_resolved at *
    refine List.Pairwise.map _ (fun a b hab => ?_) h
    intro hfa hfb
    by_cases hca : (sel.contains a.id && !a.resolved) = true
    · rw [if_pos hca] at hfa
      simp at hfa
    · by_cases hcb : (sel.contains b.id && !b.resolved) = true
      · rw [if_pos hcb] at hfb
        simp at hfb
      · rw [if_neg hca] at hfa
        rw [if_neg hcb] at hfb
        rw [if_neg hca, if_neg hcb]
        exact hab hfa hfb

/-- C7: merging a repeat occurrence into an existing open record changes
only `count`, `last_occurrence`, `debug_details` and `updated_at` —
`stack_trace`, `first_occurrence`, the resolution fields and every other
column keep their prior values, whatever trace the new event carries — and
the payload merge adds new keys, overwrites overlapping keys, and preserves
untouched keys. -/
theorem track_error_merge_frame (parse : String → Option JVal) (args : TrackArgs)
    (env : Env) (st : Store) (ex : ErrorLog) (m : List (String × JVal))
    (hfind : findOpen st (error_info_final args env.caller) = some ex)
    (hm : ex.debug_details = JVal.jobj m)
    (hdb : env.dbFail = false) :
    ∃ r st2, track_error parse args env st = (some r, st2) ∧
      r.stack_trace = ex.stack_trace ∧
      r.first_occurrence = ex.first_occurrence ∧
      r.resolved = ex.resolved ∧
      r.resolved_by = ex.resolved_by ∧
      r.resolved_at = ex.resolved_at ∧
      r.id = ex.id ∧
      r.error_level = ex.error_level ∧
      r.exception_type = ex.exception_type ∧
      r.exception_message = ex.exception_message ∧
      r.file_path = ex.file_path ∧
      r.line_number = ex.line_number ∧
      r.function_name = ex.function_name ∧
      r.user = ex.user ∧
      r.request_method = ex.request_method ∧
      r.request_path = ex.request_path ∧
      r.user_agent = ex.user_agent ∧
      r.ip_address = ex.ip_address ∧
      r.notes = ex.notes ∧
      r.created_at = ex.created_at ∧
      r.count = ex.count + 1 ∧
      r.last_occurrence = env.now ∧
      r.updated_at = env.now ∧
      r.debug_details = JVal.jobj (jdictUpdate m (combined_debug_details args env)) ∧
      (∀ k, (jdictUpdate m (combined_debug_details args env)).lookup k =
        match (combined_debug_details args env).lookup k with
        | some v => some v
        | none => m.lookup k) := by
  refine ⟨modelSave parse
      { ex with count := ex.count + 1, last_occurrence := env.now,
                debug_details := JVal.jobj (jdictUpdate m (combined_debug_details args env)) }
      env.now,
    { st with records := storeReplace st.records (modelSave parse
        { ex with count := ex.count + 1, last_occurrence := env.now,
                  debug_details := JVal.jobj (jdictUpdate m (combined_debug_details args env)) }
        env.now) },
    ?_, rfl, rfl, rfl, rfl, rfl, rfl, rfl, rfl, rfl, rfl, rfl, rfl, rfl, rfl, rfl,
    rfl, rfl, rfl, rfl, rfl, rfl, rfl, rfl, fun k => jdictUpdate_lookup m _ k⟩
  simp [track_error, trackCommit, trackCommitInner, trackQuery, hfind, hm, hdb]

/-- C6: every POST parameter whose key contains a sensitive term
(case-insensitively) reaches the enrichment payload as the fixed marker,
every other POST parameter reaches it unchanged, and `post_params` inside
the request details is exactly the filtered dict. -/
theorem post_params_redacted (r : Request) (hpost : r.POST ≠ []) :
    (get_request_details (some r)).objLookup ("post_params") =
      some (JVal.jobj ((filter_post r.POST).map (fun kv => (kv.1, JVal.jstr kv.2)))) ∧
    (∀ k v, (k, v) ∈ r.POST → isSensitiveKey k = true →
      (k, ("[FILTERED]")) ∈ filter_post r.POST) ∧
    (∀ k v, (k, v) ∈ r.POST → isSensitiveKey k = false →
      (k, v) ∈ filter_post r.POST) := by
  have hP : r.POST.isEmpty = false := by
    cases hh : r.POST with
    | nil => exact absurd hh hpost
    | cons x t => rfl
  refine ⟨?_, ?_, ?_⟩
  · rw [show (get_request_details (some r)).objLookup ("post_params") =
        (request_details_of r).lookup ("post_params") from rfl]
    unfold request_details_of
    simp only [hP, Bool.false_eq_true, if_false]
    rw [lookup_append]
    have hwg : (request_with_get r).lookup ("post_params") = none := by
      unfold request_with_get
      by_cases hG : r.GET.isEmpty = true
      · rw [if_pos hG]
        rfl
      · rw [if_neg hG]
        rfl
    rw [hwg]
    rfl
  · intro k v hmem hsens
    have h2 := List.mem_map_of_mem
      (fun kv => if isSensitiveKey kv.1 then (kv.1, ("[FILTERED]")) else kv) hmem
    simpa [filter_post, hsens] using h2
  · intro k v hmem hsens
    have h2 := List.mem_map_of_mem
      (fun kv => if isSensitiveKey kv.1 then (kv.1, ("[FILTERED]")) else kv) hmem
    simpa [filter_post, hsens] using h2

/-- C10: GET parameters reach the enrichment payload verbatim — the
`get_params` entry is the raw GET dict itself, with no redaction pass, so a
sensitive-looking GET key keeps its original value. -/
theorem get_params_verbatim (r : Request) (hget : r.GET ≠ []) :
    (get_request_details (some r)).objLookup ("get_params") =
      some (JVal.jobj (r.GET.map (fun kv => (kv.1, JVal.jstr kv.2)))) ∧
    (∀ k v, (k, v) ∈ r.GET →
      (k, JVal.jstr v) ∈ r.GET.map (fun kv => (kv.1, JVal.jstr kv.2))) := by
  have hG : r.GET.isEmpty = false := by
    cases hh : r.GET with
    | nil => exact absurd hh hget
    | cons x t => rfl
  refine ⟨?_, ?_⟩
  · rw [show (get_request_details (some r)).objLookup ("get_params") =
        (request_details_of r).lookup ("get_params") from rfl]
    unfold request_details_of
    have hinner : (request_with_get r).lookup ("get_params") =
        some (JVal.jobj (r.GET.map (fun kv => (kv.1, JVal.jstr kv.2)))) := by
      unfold request_with_get
      simp only [hG, Bool.false_eq_true, if_false]
      rfl
    by_cases hPo : r.POST.isEmpty = true
    · rw [if_pos hPo]
      exact hinner
    · rw [if_neg hPo]
      rw [lookup_append, hinner]
  · intro k v hmem
    exact List.mem_map_of_mem (fun kv => (kv.1, JVal.jstr kv.2)) hmem

/-- C8 amended: bulk resolve stamps every selected open record with the
acting identity and the current time and leaves already-resolved records
untouched; a single-record edit that sets `resolved = true` auto-assigns
both `resolved_by` and `resolved_at` exactly when the caller supplied no
`resolved_by` (a supplied `resolved_by` suppresses the auto-assignment, so
a caller-cleared `resolved_at` stays empty); taking a record `Resolved ->
Open` clears both fields unconditionally (single edit and bulk); and the
fix-up fires only when the resolution flag is among the changed fields. -/
theorem resolution_transitions (parse : String → Option JVal) :
    (∀ recs sel actor now r, r ∈ recs → r.resolved = false → sel.contains r.id = true →
      { r with resolved := true, resolved_by := some actor, resolved_at := some now } ∈
        (mark_as_resolved recs sel actor now).1) ∧
    (∀ recs sel actor now r, r ∈ recs → r.resolved = true →
      r ∈ (mark_as_resolved recs sel actor now).1) ∧
    (∀ recs obj actor now, obj.resolved = true → obj.resolved_by = none →
      ((save_model parse recs obj true true actor now).1).resolved = true ∧
      ((save_model parse recs obj true true actor now).1).resolved_by = some actor ∧
      ((save_model parse recs obj true true actor now).1).resolved_at = some now) ∧
    (∀ recs obj actor now u, obj.resolved = true → obj.resolved_by = some u →
      ((save_model parse recs obj true true actor now).1).resolved = true ∧
      ((save_model parse recs obj true true actor now).1).resolved_by = some u ∧
      ((save_model parse recs obj true true actor now).1).resolved_at = obj.resolved_at) ∧
    (∀ recs obj actor now, obj.resolved = false →
      ((save_model parse recs obj true true actor now).1).resolved = false ∧
      ((save_model parse recs obj true true actor now).1).resolved_by = none ∧
      ((save_model parse recs obj true true actor now).1).resolved_at = none) ∧
    (∀ recs sel r, r ∈ recs → r.resolved = true → sel.contains r.id = true →
      { r with resolved := false, resolved_by := none, resolved_at := none } ∈
        (mark_as_unresolved recs sel).1) ∧
    (∀ recs obj change actor now,
      ((save_model parse recs obj change false actor now).1).resolved = obj.resolved ∧
      ((save_model parse recs obj change false actor now).1).resolved_by = obj.resolved_by ∧
      ((save_model parse recs obj change false actor now).1).resolved_at = obj.resolved_at) := by
  refine ⟨?_, ?_, ?_, ?_, ?_, ?_, ?_⟩
  · intro recs sel actor now r hmem hres hsel
    have hm2 : r.id ∈ sel := by simpa using hsel
    exact List.mem_map.mpr ⟨r, hmem, by simp [hm2, hres]⟩
  · intro recs sel actor now r hmem hres
    exact List.mem_map.mpr ⟨r, hmem, by simp [hres]⟩
  · intro recs obj actor now hres hby
    have e2 : admin_resolution_fixup obj true true actor now =
        { obj with resolved_by := some actor, resolved_at := some now } := by
      unfold admin_resolution_fixup
      rw [if_pos (show (true && true) = true from rfl), if_pos (by simp [hres, hby])]
    refine ⟨?_, ?_, ?_⟩
    · show (admin_resolution_fixup obj true true actor now).resolved = true
      rw [e2]
      exact hres
    · show (admin_resolution_fixup obj true true actor now).resolved_by = some actor
      rw [e2]
    · show (admin_resolution_fixup obj true true actor now).resolved_at = some now
      rw [e2]
  · intro recs obj actor now u hres hby
    have e2 : admin_resolution_fixup obj true true actor now = obj := by
      unfold admin_resolution_fixup
      rw [if_pos (show (true && true) = true from rfl), if_neg (by simp [hby]), if_neg (by simp [hres])]
    refine ⟨?_, ?_, ?_⟩
    · show (admin_resolution_fixup obj true true actor now).resolved = true
      rw [e2]
      exact hres
    · show (admin_resolution_fixup obj true true actor now).resolved_by = some u
      rw [e2]
      exact hby
    · show (admin_resolution_fixup obj true true actor now).resolved_at = obj.resolved_at
      rw [e2]
  · intro recs obj actor now hres
    have e2 : admin_resolution_fixup obj true true actor now =
        { obj with resolved_by := none, resolved_at := none } := by
      unfold admin_resolution_fixup
      rw [if_pos (show (true && true) = true from rfl), if_neg (by simp [hres]), if_pos (by simp [hres])]
    refine ⟨?_, ?_, ?_⟩
    · show (admin_resolution_fixup obj true true actor now).resolved = false
      rw [e2]
      exact hres
    · show (admin_resolution_fixup obj true true actor now).resolved_by = none
      rw [e2]
    · show (admin_resolution_fixup obj true true actor now).resolved_at = none
      rw [e2]
  · intro recs sel r hmem hres hsel
    have hm2 : r.id ∈ sel := by simpa using hsel
    exact List.mem_map.mpr ⟨r, hmem, by simp [hm2, hres]⟩
  · intro recs obj change actor now
    have e2 : admin_resolution_fixup obj change false actor now = obj := by
      unfold admin_resolution_fixup
      rw [if_neg (by simp)]
    refine ⟨?_, ?_, ?_⟩
    · show (admin_resolution_fixup obj change false actor now).resolved = obj.resolved
      rw [e2]
    · show (admin_resolution_fixup obj change false actor now).resolved_by = obj.resolved_by
      rw [e2]
    · show (admin_resolution_fixup obj change false actor now).resolved_at = obj.resolved_at
      rw [e2]

/-- C9 amended: a record whose debug-details payload is a non-empty string
that fails to parse as JSON has the raw string wrapped under the fallback
key `raw_data` by the model save path (before persisting) instead of being
rejected, while a record whose payload is already structured is passed
through unchanged; the empty-string payload is skipped by the truthiness
guard (see the counterexample). -/
theorem malformed_payload_wrapped (parse : String → Option JVal) (s : String)
    (r : ErrorLog) (now : Nat) (hs : s ≠ "") (hbad : parse s = none)
    (hr : r.debug_details = JVal.jstr s) :
    (modelSave parse r now).debug_details = JVal.jobj [(("raw_data"), JVal.jstr s)] ∧
    (∀ r2 : ErrorLog, ∀ now2 : Nat, r2.debug_details.isObj = true →
      (modelSave parse r2 now2).debug_details = r2.debug_details) := by
  constructor
  · simp [modelSave, normalize_debug_details, hr, hs, hbad]
  · intro r2 now2 h2
    obtain ⟨m, hm⟩ := (isObj_iff r2.debug_details).mp h2
    simp [modelSave, normalize_debug_details, hm]

/-- C2 (violation exhibited): the query and commit halves of `track_error`
run without isolation — sequential execution is exactly query-then-commit,
and the interleaving query-query-commit-commit of two calls carrying the
identical dedup key against the empty table ends with two open records of
that key, each at `count = 1`, instead of one record at `count = 2`. -/
theorem race_interleaving_duplicates :
    trackQuery cexArgs (envAt 0) { records := [], nextId := 0 } = none ∧
    track_error parse0 cexArgs (envAt 0) { records := [], nextId := 0 } =
      trackCommit parse0 cexArgs (envAt 0)
        (trackQuery cexArgs (envAt 0) { records := [], nextId := 0 })
        { records := [], nextId := 0 } ∧
    raceStore2.records.length = 2 ∧
    raceStore2.records.map (fun r => (r.count, r.resolved, recKey r)) =
      [((1 : Nat), false, ((("CustomError"), ("boom"), ("/a.py"), some 3))),
       ((1 : Nat), false, ((("CustomError"), ("boom"), ("/a.py"), some 3)))] :=
  ⟨rfl, rfl, rfl, rfl⟩

/-- C3 counterexample: a reachable history — ingest, bulk-resolve, ingest
the same signature again, bulk-unresolve the first row — ends with two open
records sharing one dedup key, so the uniqueness invariant is not preserved
by the unresolve transition. -/
theorem unresolve_breaks_open_key_uniqueness :
    ¬ OpenKeyUnique reopenFinal ∧
    reopenFinal.map (fun r => (r.id, r.resolved, recKey r)) =
      [((0 : Nat), false, ((("CustomError"), ("boom"), ("/a.py"), some 3))),
       ((1 : Nat), false, ((("CustomError"), ("boom"), ("/a.py"), some 3)))] :=
  ⟨by decide, rfl⟩

/-- C4 (violation exhibited): an exception object with a traceback is
tracked with `exception_message`, `file_path`, `line_number` and
`function_name` taken from the traceback, even though the caller supplied
`custom_message` and explicit site overrides — the
`error_info.update(extract_traceback_info(...))` call overwrites every
override-derived field. -/
theorem exception_overrides_discarded :
    c4Args.custom_message = some ("custom") ∧
    c4Args.file_path = some ("/x.py") ∧
    c4Args.line_number = some 5 ∧
    c4Args.function_name = some ("fn") ∧
    ((track_error parse0 c4Args (envAt 0) { records := [], nextId := 0 }).1).map
      (fun r => (r.exception_message, r.file_path, r.line_number, r.function_name)) =
      some ((("boom"), ("/deep.py"), some 42, ("g"))) :=
  ⟨rfl, rfl, rfl, rfl, rfl⟩

/-- C8 counterexample: an edit that sets `resolved = true` and supplies
`resolved_by` but leaves `resolved_at` empty is persisted with
`resolved_at` still empty — the auto-assignment is keyed on `resolved_by`
alone. -/
theorem resolved_at_left_empty_on_resolve :
    ((save_model parse0 [baseRec]
        { baseRec with resolved := true, resolved_by := some 9 } true true 7 5).1).resolved
      = true ∧
    ((save_model parse0 [baseRec]
        { baseRec with resolved := true, resolved_by := some 9 } true true 7 5).1).resolved_by
      = some 9 ∧
    ((save_model parse0 [baseRec]
        { baseRec with resolved := true, resolved_by := some 9 } true true 7 5).1).resolved_at
      = none :=
  ⟨rfl, rfl, rfl⟩

/-- C9 counterexample: the empty string is a string payload that no JSON
parser accepts, yet the save path leaves it unwrapped — the truthiness
guard in `ErrorLog.save` skips falsy payloads. -/
theorem empty_string_payload_not_wrapped :
    parse0 ("") = none ∧
    (modelSave parse0 { baseRec with debug_details := JVal.jstr ("") } 5).debug_details
      = JVal.jstr ("") ∧
    (modelSave parse0 { baseRec with debug_details := JVal.jstr ("") } 5).debug_details
      ≠ JVal.jobj [(("raw_data"), JVal.jstr (""))] := by
  refine ⟨rfl, rfl, fun h => ?_⟩
  rw [show (modelSave parse0 { baseRec with debug_details := JVal.jstr ("") } 5).debug_details
      = JVal.jstr ("") from rfl] at h
  cases h

/-- Witness for C1 at a concrete one-row table. -/
theorem track_error_dedup_witness :
    StoreWF c1Store ∧
    (∃ r st2, track_error parse0 cexArgs (envAt 5) c1Store = (some r, st2) ∧
      r.id = baseRec.id ∧ r.count = baseRec.count + 1 ∧
      st2.records.map (fun t => t.id) = c1Store.records.map (fun t => t.id) ∧
      st2.nextId = c1Store.nextId) := by
  refine ⟨by decide, ?_⟩
  exact (track_error_dedup parse0 cexArgs (envAt 5) c1Store (by decide) rfl).1 baseRec rfl

/-- Witness for the amended C3 at a concrete one-row table. -/
theorem openKeyUnique_preserved_witness :
    StoreWF c1Store ∧ OpenKeyUnique c1Store.records ∧
    OpenKeyUnique (track_error parse0 cexArgs (envAt 5) c1Store).2.records := by
  refine ⟨by decide, by decide, ?_⟩
  exact (openKeyUnique_preserved parse0 cexArgs (envAt 5) c1Store (by decide) (by decide)).1

/-- Witness for C5: an injected persistence failure and a non-dict merge
target both come back as `none` with the table untouched. -/
theorem track_error_never_raises_witness :
    track_error parse0 cexArgs { envAt 0 with dbFail := true } { records := [], nextId := 0 }
      = (none, { records := [], nextId := 0 }) ∧
    track_error parse0 cexArgs (envAt 0) badStore = (none, badStore) := by
  constructor
  · exact (track_error_never_raises parse0 cexArgs { envAt 0 with dbFail := true }
      { records := [], nextId := 0 }).2.1 rfl
  · exact (track_error_never_raises parse0 cexArgs (envAt 0) badStore).2.2
      { baseRec with debug_details := JVal.jstr ("x") } rfl rfl

/-- Witness for C6: the spec's own example, POST
`{password: x, name: y}`. -/
theorem post_params_redacted_witness :
    c6Req.POST ≠ [] ∧
    (get_request_details (some c6Req)).objLookup ("post_params") =
      some (JVal.jobj [(("password"), JVal.jstr ("[FILTERED]")),
                       (("name"), JVal.jstr ("y"))]) := by
  refine ⟨by decide, ?_⟩
  exact ((post_params_redacted c6Req (by decide)).1).trans (by rfl)

/-- Witness for C7 at a concrete one-row table. -/
theorem track_error_merge_frame_witness :
    findOpen c1Store (error_info_final cexArgs (envAt 5).caller) = some baseRec ∧
    baseRec.debug_details = JVal.jobj [] ∧
    (∃ r st2, track_error parse0 cexArgs (envAt 5) c1Store = (some r, st2) ∧
      r.stack_trace = baseRec.stack_trace ∧
      r.first_occurrence = baseRec.first_occurrence ∧
      r.resolved = baseRec.resolved ∧
      r.resolved_by = baseRec.resolved_by ∧
      r.resolved_at = baseRec.resolved_at) := by
  refine ⟨rfl, rfl, ?_⟩
  obtain ⟨r, st2, h1, h2, h3, h4, h5, h6, _⟩ :=
    track_error_merge_frame parse0 cexArgs (envAt 5) c1Store baseRec [] rfl rfl rfl
  exact ⟨r, st2, h1, h2, h3, h4, h5, h6⟩

/-- Witness for the amended C8: a plain resolve edit with no supplied
`resolved_by` gets both fields stamped. -/
theorem resolution_transitions_witness :
    ((save_model parse0 [baseRec]
        { baseRec with resolved := true } true true 7 5).1).resolved = true ∧
    ((save_model parse0 [baseRec]
        { baseRec with resolved := true } true true 7 5).1).resolved_by = some 7 ∧
    ((save_model parse0 [baseRec]
        { baseRec with resolved := true } true true 7 5).1).resolved_at = some 5 :=
  (resolution_transitions parse0).2.2.1 [baseRec] { baseRec with resolved := true } 7 5 rfl rfl

/-- Witness for the amended C9: a non-empty unparseable payload gets
wrapped under `raw_data`. -/
theorem malformed_payload_wrapped_witness :
    (("bad json") : String) ≠ "" ∧ parse0 ("bad json") = none ∧
    (modelSave parse0 { baseRec with debug_details := JVal.jstr ("bad json") } 5).debug_details
      = JVal.jobj [(("raw_data"), JVal.jstr ("bad json"))] := by
  refine ⟨by decide, rfl, ?_⟩
  exact (malformed_payload_wrapped parse0 ("bad json")
    { baseRec with debug_details := JVal.jstr ("bad json") } 5 (by decide) rfl rfl).1

/-- Witness for C10: sensitive-looking GET keys are stored verbatim. -/
theorem get_params_verbatim_witness :
    c10Req.GET ≠ [] ∧
    (get_request_details (some c10Req)).objLookup ("get_params") =
      some (JVal.jobj [(("password"), JVal.jstr ("hunter2")),
                       (("token"), JVal.jstr ("t1"))]) := by
  refine ⟨by decide, ?_⟩
  exact ((get_params_verbatim c10Req (by decide)).1).trans (by rfl)
